import Mathlib

/-!
Verification of the ZeroTierOne Windows service adapter
(`src/windows/ZeroTierOne/ZeroTierOneService.h`).

The repository fragment contains only the class declaration: the service
registration macros, the class members with their access specifiers, and
the lifecycle callback signatures.  The callback bodies (`OnStart`,
`OnStop`, `OnShutdown`, `threadMain`) are not part of the fragment, so
their behaviour is modelled from the specification (each such definition
carries a doc comment starting `Modelled from the spec:`).  The
declaration-level facts (member access, registration constants) are
embedded directly from the header.
-/

/-! ## Embedding of the header's declarations -/

/-- C++ access specifiers, as they appear in the class declaration. -/
inductive Access where
  | publicAcc
  | protectedAcc
  | privateAcc
deriving DecidableEq, Repr

/-- One member of a C++ class declaration: its name and access specifier. -/
structure Member where
  name : String
  access : Access
deriving DecidableEq, Repr

/-- The members of `class ZeroTierOneService : public CServiceBase`, in
declaration order, with the access specifier of the section each appears in
(`public:` for the constructor, destructor and `threadMain`; `protected:`
for the three lifecycle callbacks; `private:` for the two handle fields). -/
def zeroTierOneServiceMembers : List Member :=
  [ ⟨"ZeroTierOneService", Access.publicAcc⟩
  , ⟨"~ZeroTierOneService", Access.publicAcc⟩
  , ⟨"threadMain", Access.publicAcc⟩
  , ⟨"OnStart", Access.protectedAcc⟩
  , ⟨"OnStop", Access.protectedAcc⟩
  , ⟨"OnShutdown", Access.protectedAcc⟩
  , ⟨"_node", Access.privateAcc⟩
  , ⟨"_thread", Access.privateAcc⟩ ]

/-- Access specifier of a named member of `ZeroTierOneService`. -/
def memberAccess (n : String) : Option Access :=
  (zeroTierOneServiceMembers.find? (fun m => m.name = n)).map Member.access

/-- A member is accessible from outside the class (and outside its
subclasses) exactly when it is declared `public`. -/
def accessibleOutside (a : Access) : Bool :=
  a = Access.publicAcc

/-! ## Service registration constants (from the `#define`s in the header) -/

/-- Macro `ZT_SERVICE_NAME`, defined in the header as `"ZeroTierOneService"`. -/
def ZT_SERVICE_NAME : String := "ZeroTierOneService"

/-- Macro `ZT_SERVICE_DISPLAY_NAME`, defined in the header as `"ZeroTier One"`. -/
def ZT_SERVICE_DISPLAY_NAME : String := "ZeroTier One"

/-- The Windows SCM start-type constant `SERVICE_AUTO_START` (numeric value
`0x00000002` in `winsvc.h`): the service starts automatically at boot. -/
def SERVICE_AUTO_START : Nat := 2

/-- The Windows SCM start-type constant `SERVICE_DEMAND_START`
(`0x00000003`): the service starts only on demand. -/
def SERVICE_DEMAND_START : Nat := 3

/-- Macro `ZT_SERVICE_START_TYPE`, defined in the header as `SERVICE_AUTO_START`. -/
def ZT_SERVICE_START_TYPE : Nat := SERVICE_AUTO_START

/-- Macro `ZT_SERVICE_DEPENDENCIES`, defined in the header as the empty
string: the service declares no dependencies. -/
def ZT_SERVICE_DEPENDENCIES : String := ""

/-- Macro `ZT_SERVICE_ACCOUNT`, defined in the header as the string
`NT AUTHORITY\LocalService` (with an escaped backslash). -/
def ZT_SERVICE_ACCOUNT : String := "NT AUTHORITY\\LocalService"

/-- Macro `ZT_SERVICE_PASSWORD`, defined in the header as `NULL`. -/
def ZT_SERVICE_PASSWORD : Option String := none

/-! ## The modelled lifecycle state machine

The callback bodies are not in the fragment; the adapter behaviour below is
modelled from the specification (§4 ServiceAdapter). -/

/-- The adapter's observable states (spec §4: STOPPED, STARTING, RUNNING,
STOPPING). -/
inductive SvcState where
  | stopped
  | starting
  | running
  | stopping
deriving DecidableEq, Repr

/-- The adapter's mutable state: the current observable service state, a
flag recording whether the engine handle `_node` is non-null, and the
number of live worker threads behind `_thread` (counted, so that
"at most one live worker" is a provable invariant rather than a feature of
the representation). -/
structure Adapter where
  state : SvcState
  node : Bool
  workers : Nat
deriving DecidableEq, Repr

/-- A fresh adapter: state STOPPED, null engine handle, no worker. -/
def Adapter.init : Adapter := ⟨SvcState.stopped, false, 0⟩

/-- Outcome reported to the service manager by a lifecycle operation
(spec §7 error kinds, plus the normal outcomes). -/
inductive Report where
  | startedOk
  | startFailure
  | alreadyRunning
  | stoppedOk
  | stopTimeout
  | abnormalStop
  | noop
deriving DecidableEq, Repr

/-- Teardown/startup actions an operation performs on its collaborators
(spec §6 engine interface and §4 teardown steps). -/
inductive SvcAction where
  | constructEngine
  | spawnWorker
  | signalStop
  | joinWorker
  | forceTerminate
  | destroyEngine
deriving DecidableEq, Repr

/-- The full result of one lifecycle operation: the adapter state after the
call, the sequence of observable service-state transitions reported to the
service manager during the call, the reported outcome, and the actions
performed. -/
structure OpResult where
  adapter : Adapter
  trace : List SvcState
  report : Report
  actions : List SvcAction
deriving DecidableEq, Repr

/-- Modelled from the spec: `ZeroTierOneService::OnStart` (spec §4).  The
body is not in the fragment.  Precondition state STOPPED; otherwise the
call is rejected as AlreadyRunning with no state change and no spawned
worker (spec §7).  From STOPPED it transitions to STARTING, constructs the
engine (`constructOk` says whether construction succeeds), and on success
spawns the worker and transitions to RUNNING; on failure it transitions
back to STOPPED and signals the failure to the service manager, leaving no
worker dangling. -/
def OnStart (a : Adapter) (constructOk : Bool) : OpResult :=
  if a.state ≠ SvcState.stopped then
    ⟨a, [], Report.alreadyRunning, []⟩
  else if constructOk then
    ⟨⟨SvcState.running, true, a.workers + 1⟩,
     [SvcState.starting, SvcState.running],
     Report.startedOk,
     [SvcAction.constructEngine, SvcAction.spawnWorker]⟩
  else
    ⟨⟨SvcState.stopped, false, a.workers⟩,
     [SvcState.starting, SvcState.stopped],
     Report.startFailure,
     [SvcAction.constructEngine]⟩

/-- Modelled from the spec: the teardown shared by `OnStop` and
`OnShutdown` (spec §4).  Transition to STOPPING, deliver the cooperative
stop signal, then either join the worker (it exited within the grace
period, `coop = true`) or escalate to forced termination
(`coop = false`, reported as StopTimeout), destroy the engine handle, and
transition to STOPPED. -/
def teardown (_a : Adapter) (coop : Bool) : OpResult :=
  ⟨⟨SvcState.stopped, false, 0⟩,
   [SvcState.stopping, SvcState.stopped],
   if coop then Report.stoppedOk else Report.stopTimeout,
   SvcAction.signalStop ::
     (if coop then [SvcAction.joinWorker] else [SvcAction.forceTerminate])
     ++ [SvcAction.destroyEngine]⟩

/-- Modelled from the spec: `ZeroTierOneService::OnStop` (spec §4).  The
body is not in the fragment.  When RUNNING it performs the teardown; when
already STOPPED or STOPPING it is a no-op (idempotent).  (STARTING is never
observable between calls: the dispatch context delivers the callbacks
sequentially, spec §5.) -/
def OnStop (a : Adapter) (coop : Bool) : OpResult :=
  if a.state = SvcState.running then teardown a coop
  else ⟨a, [], Report.noop, []⟩

/-- Modelled from the spec: `ZeroTierOneService::OnShutdown` (spec §4): a
distinct entry point invoked on system shutdown, producing the same net
effect as `OnStop` under a potentially shorter time budget (`coop` says
whether the worker exits within that budget), written out with its own
teardown steps so its agreement with `OnStop` is a theorem rather than a
definition. -/
def OnShutdown (a : Adapter) (coop : Bool) : OpResult :=
  if a.state = SvcState.running then
    ⟨⟨SvcState.stopped, false, 0⟩,
     [SvcState.stopping, SvcState.stopped],
     if coop then Report.stoppedOk else Report.stopTimeout,
     SvcAction.signalStop ::
       (if coop then [SvcAction.joinWorker] else [SvcAction.forceTerminate])
       ++ [SvcAction.destroyEngine]⟩
  else ⟨a, [], Report.noop, []⟩

/-- A worker-context outcome: the engine's run loop exits normally (on the
cooperative stop signal) or an unrecoverable failure arises inside the
body. -/
inductive WorkerOutcome where
  | normalExit
  | fault
deriving DecidableEq, Repr

/-- An uncaught failure inside the worker body, before the outer frame
catches it. -/
structure WorkerFault where
deriving DecidableEq, Repr

/-- Modelled from the spec: the body of `threadMain` without its outermost
catch frame: it runs the engine's blocking main loop and either returns
normally or lets an unrecoverable failure escape. -/
def threadMainBody (o : WorkerOutcome) : Except WorkerFault Unit :=
  match o with
  | WorkerOutcome.normalExit => Except.ok ()
  | WorkerOutcome.fault => Except.error ⟨⟩

/-- Modelled from the spec: `ZeroTierOneService::threadMain` (spec §4),
declared `throw()` in the header: the outermost frame catches every
failure of the body, so the function never propagates a failure to its
caller (an `Except.error` result would model a failure crossing the thread
boundary and crashing the host process).  A caught fault is translated
into an adapter-visible transition to STOPPED, with both handles released,
reported as an abnormal stop. -/
def threadMain (a : Adapter) (o : WorkerOutcome) :
    Except WorkerFault (Adapter × Report) :=
  match threadMainBody o with
  | Except.ok _ => Except.ok (a, Report.noop)
  | Except.error _ =>
      Except.ok (⟨SvcState.stopped, false, 0⟩, Report.abnormalStop)

/-! ## Event sequences and reachability -/

/-- One service-control dispatch event: a call to one of the three
lifecycle callbacks, with its environment choice (does engine construction
succeed; does the worker exit within the grace period). -/
inductive Event where
  | start (constructOk : Bool)
  | stop (coop : Bool)
  | shutdown (coop : Bool)
deriving DecidableEq, Repr

/-- Apply one dispatch event to the adapter. -/
def applyEvent (a : Adapter) (e : Event) : OpResult :=
  match e with
  | Event.start ok => OnStart a ok
  | Event.stop coop => OnStop a coop
  | Event.shutdown coop => OnShutdown a coop

/-- Run a sequence of dispatch events, collecting the concatenation of the
observable state traces. -/
def runEvents (a : Adapter) : List Event → Adapter × List SvcState
  | [] => (a, [])
  | e :: es =>
      let r := applyEvent a e
      let rest := runEvents r.adapter es
      (rest.1, r.trace ++ rest.2)

/-- The adapter state after a sequence of dispatch events. -/
def runAdapter (a : Adapter) (es : List Event) : Adapter :=
  (runEvents a es).1

/-- An adapter state is reachable when some sequence of dispatch events
leads to it from the fresh adapter. -/
def Reachable (a : Adapter) : Prop :=
  ∃ es : List Event, runAdapter Adapter.init es = a

/-- The allowed one-step transitions of the observable state machine
(spec §4): STOPPED→STARTING, STARTING→RUNNING, STARTING→STOPPED (failed
start), RUNNING→STOPPING, STOPPING→STOPPED. -/
def stepOk (s t : SvcState) : Bool :=
  match s, t with
  | SvcState.stopped, SvcState.starting => true
  | SvcState.starting, SvcState.running => true
  | SvcState.starting, SvcState.stopped => true
  | SvcState.running, SvcState.stopping => true
  | SvcState.stopping, SvcState.stopped => true
  | _, _ => false

/-- A list of observed states is a valid path from `s` when every
consecutive pair is an allowed transition. -/
def validPath (s : SvcState) : List SvcState → Bool
  | [] => true
  | t :: ts => stepOk s t && validPath t ts

/-- The last state of a trace starting at `s`. -/
def lastState (s : SvcState) : List SvcState → SvcState
  | [] => s
  | t :: ts => lastState t ts

/-- Recogniser for start events. -/
def Event.isStart : Event → Bool
  | Event.start _ => true
  | _ => false

/-! ## The adapter invariant -/

/-- The inductive invariant of the modelled adapter: between sequential
dispatch calls the adapter is either fully stopped (null engine handle, no
worker) or fully running (non-null engine handle, exactly one worker). -/
def inv (a : Adapter) : Prop :=
  (a.state = SvcState.stopped ∧ a.node = false ∧ a.workers = 0) ∨
  (a.state = SvcState.running ∧ a.node = true ∧ a.workers = 1)

lemma inv_init : inv Adapter.init := Or.inl ⟨rfl, rfl, rfl⟩

lemma validPath_append (s : SvcState) (t1 t2 : List SvcState) :
    validPath s (t1 ++ t2) = (validPath s t1 && validPath (lastState s t1) t2) := by
  induction t1 generalizing s with
  | nil => simp [validPath, lastState]
  | cons x xs ih => simp [validPath, lastState, ih, Bool.and_assoc]

lemma lastState_append (s : SvcState) (t1 t2 : List SvcState) :
    lastState s (t1 ++ t2) = lastState (lastState s t1) t2 := by
  induction t1 generalizing s with
  | nil => simp [lastState]
  | cons x xs ih => simp [lastState, ih]

/-- One dispatch event keeps the invariant, emits a valid trace, and its
trace ends at the new adapter state. -/
lemma applyEvent_step (a : Adapter) (e : Event) (h : inv a) :
    validPath a.state (applyEvent a e).trace = true ∧
    lastState a.state (applyEvent a e).trace = (applyEvent a e).adapter.state ∧
    inv (applyEvent a e).adapter := by
  rcases h with ⟨hs, hn, hw⟩ | ⟨hs, hn, hw⟩ <;>
    rcases e with ⟨b⟩ | ⟨b⟩ | ⟨b⟩ <;> cases b <;>
      simp [applyEvent, OnStart, OnStop, OnShutdown, teardown, inv,
        validPath, stepOk, lastState, hs, hn, hw]

/-- Running any event sequence from an invariant-satisfying adapter keeps
the invariant and produces a valid observable trace ending at the final
state. -/
lemma runEvents_sound (es : List Event) (a : Adapter) (h : inv a) :
    inv (runEvents a es).1 ∧
    validPath a.state (runEvents a es).2 = true ∧
    lastState a.state (runEvents a es).2 = (runEvents a es).1.state := by
  induction es generalizing a with
  | nil => exact ⟨h, rfl, rfl⟩
  | cons e es ih =>
      obtain ⟨hv, hl, hinv⟩ := applyEvent_step a e h
      obtain ⟨ih1, ih2, ih3⟩ := ih (applyEvent a e).adapter hinv
      refine ⟨ih1, ?_, ?_⟩
      · simp [runEvents, validPath_append, hv, hl, ih2]
      · simp [runEvents, lastState_append, hl, ih3]

/-- Every reachable adapter state satisfies the invariant. -/
lemma reachable_inv (a : Adapter) (h : Reachable a) : inv a := by
  obtain ⟨es, hes⟩ := h
  have := (runEvents_sound es Adapter.init inv_init).1
  rwa [show (runEvents Adapter.init es).1 = a from hes] at this

/-- Result of observing whether a worker failure escaped `threadMain` and
crossed the thread boundary (which would crash the host process): true
exactly when the function's result is an uncaught error. -/
def crossesThreadBoundary (r : Except WorkerFault (Adapter × Report)) : Bool :=
  match r with
  | Except.error _ => true
  | Except.ok _ => false

/-! ## Claim theorems -/

/-- C1: for every sequence of OnStart/OnStop/OnShutdown invocations on a
fresh adapter (initial state STOPPED), the observable state transitions
form a valid path through {STOPPED, STARTING, RUNNING, STOPPING}: each
consecutive transition of the reported trace is one of the allowed edges
STOPPED→STARTING, STARTING→RUNNING, STARTING→STOPPED, RUNNING→STOPPING,
STOPPING→STOPPED, with none skipped or reordered. -/
theorem lifecycle_trace_valid (es : List Event) :
    validPath Adapter.init.state (runEvents Adapter.init es).2 = true :=
  (runEvents_sound es Adapter.init inv_init).2.1

/-- C2: every reachable adapter state has at most one live worker thread,
and an OnStart call made while the state is not STOPPED (in particular
while RUNNING) is rejected as AlreadyRunning: it changes nothing, spawns
no second worker, and leaves the state as it was (RUNNING stays
RUNNING). -/
theorem at_most_one_worker (a : Adapter) (ok : Bool) (h : Reachable a) :
    a.workers ≤ 1 ∧
    (a.state ≠ SvcState.stopped →
      (OnStart a ok).adapter = a ∧
      (OnStart a ok).report = Report.alreadyRunning ∧
      SvcAction.spawnWorker ∉ (OnStart a ok).actions) := by
  refine ⟨?_, ?_⟩
  · rcases reachable_inv a h with ⟨_, _, hw⟩ | ⟨_, _, hw⟩ <;> omega
  · intro hs
    simp [OnStart, hs]

/-- Witness for C2 at the reachable running adapter obtained by one
successful start. -/
theorem at_most_one_worker_witness :
    (Adapter.mk SvcState.running true 1).workers ≤ 1 ∧
    ((Adapter.mk SvcState.running true 1).state ≠ SvcState.stopped →
      (OnStart (Adapter.mk SvcState.running true 1) true).adapter =
        Adapter.mk SvcState.running true 1 ∧
      (OnStart (Adapter.mk SvcState.running true 1) true).report =
        Report.alreadyRunning ∧
      SvcAction.spawnWorker ∉
        (OnStart (Adapter.mk SvcState.running true 1) true).actions) :=
  at_most_one_worker (Adapter.mk SvcState.running true 1) true
    ⟨[Event.start true], by decide⟩

/-- C3: in every reachable adapter state, the engine handle `_node` is
non-null exactly when the service state is RUNNING: null before a start
completes and null again after a stop or shutdown completes. -/
theorem node_nonnull_iff_running (a : Adapter) (h : Reachable a) :
    a.node = true ↔ a.state = SvcState.running := by
  rcases reachable_inv a h with ⟨hs, hn, _⟩ | ⟨hs, hn, _⟩ <;> simp [hs, hn]

/-- Witness for C3 at the freshly initialised (stopped) adapter. -/
theorem node_nonnull_iff_running_witness :
    Adapter.init.node = true ↔ Adapter.init.state = SvcState.running :=
  node_nonnull_iff_running Adapter.init ⟨[], rfl⟩

/-- C4: if engine construction fails during OnStart from a reachable
STOPPED state, the call leaves the adapter exactly as it was (state
STOPPED, null engine handle, no worker), spawns no worker, and reports
the failure to the service manager instead of reporting RUNNING. -/
theorem onStart_failure_rollback (a : Adapter) (h : Reachable a)
    (hs : a.state = SvcState.stopped) :
    (OnStart a false).adapter = a ∧
    (OnStart a false).adapter.state = SvcState.stopped ∧
    (OnStart a false).adapter.node = false ∧
    (OnStart a false).adapter.workers = 0 ∧
    (OnStart a false).report = Report.startFailure ∧
    SvcAction.spawnWorker ∉ (OnStart a false).actions := by
  have hinv := reachable_inv a h
  obtain ⟨s, n, w⟩ := a
  rcases hinv with ⟨hs2, hn, hw⟩ | ⟨hs2, hn, hw⟩
  · simp only at hs2 hn hw
    subst hs2; subst hn; subst hw
    decide
  · simp only at hs hs2
    rw [hs] at hs2
    exact absurd hs2 (by decide)

/-- Witness for C4 at the freshly initialised adapter. -/
theorem onStart_failure_rollback_witness :
    (OnStart Adapter.init false).adapter = Adapter.init ∧
    (OnStart Adapter.init false).adapter.state = SvcState.stopped ∧
    (OnStart Adapter.init false).adapter.node = false ∧
    (OnStart Adapter.init false).adapter.workers = 0 ∧
    (OnStart Adapter.init false).report = Report.startFailure ∧
    SvcAction.spawnWorker ∉ (OnStart Adapter.init false).actions :=
  onStart_failure_rollback Adapter.init ⟨[], rfl⟩ rfl

/-- C5: a failure arising inside the worker body never propagates out of
`threadMain` across the thread boundary (the result is never an uncaught
error, so the host process never crashes); a fault is caught at the
outermost frame and translated into an adapter-visible transition to
STOPPED, reported as an abnormal stop. -/
theorem threadMain_no_propagation (a : Adapter) (o : WorkerOutcome) :
    crossesThreadBoundary (threadMain a o) = false ∧
    (o = WorkerOutcome.fault →
      threadMain a o =
        Except.ok (⟨SvcState.stopped, false, 0⟩, Report.abnormalStop)) := by
  cases o
  · exact ⟨rfl, fun hcontra => absurd hcontra (by decide)⟩
  · exact ⟨rfl, fun _ => rfl⟩

/-- Witness for C5 at a running adapter with a faulting worker. -/
theorem threadMain_no_propagation_witness :
    crossesThreadBoundary
      (threadMain (Adapter.mk SvcState.running true 1) WorkerOutcome.fault) =
      false ∧
    (WorkerOutcome.fault = WorkerOutcome.fault →
      threadMain (Adapter.mk SvcState.running true 1) WorkerOutcome.fault =
        Except.ok (⟨SvcState.stopped, false, 0⟩, Report.abnormalStop)) :=
  threadMain_no_propagation (Adapter.mk SvcState.running true 1)
    WorkerOutcome.fault

/-- C6: OnStop called when the adapter is already STOPPED (or STOPPING) is
a no-op: the adapter (state field and both handles) is unchanged, the
trace is empty, and no teardown action is performed. -/
theorem onStop_idempotent_when_stopped (a : Adapter) (coop : Bool)
    (h : a.state = SvcState.stopped ∨ a.state = SvcState.stopping) :
    OnStop a coop = ⟨a, [], Report.noop, []⟩ := by
  rcases h with h | h <;> simp [OnStop, h]

/-- Witness for C6 at the freshly initialised (stopped) adapter. -/
theorem onStop_idempotent_when_stopped_witness :
    OnStop Adapter.init true = ⟨Adapter.init, [], Report.noop, []⟩ :=
  onStop_idempotent_when_stopped Adapter.init true (Or.inl rfl)

/-- C7: OnStop from RUNNING always completes with the state STOPPED, and
either the worker exits cooperatively within the grace period (signal,
join, destroy; reported as a normal stop) or OnStop escalates to forced
termination of the worker (signal, force-terminate, destroy; reported as
StopTimeout) — it never blocks forever waiting on the worker. -/
theorem onStop_bounded_termination (a : Adapter) (coop : Bool)
    (h : a.state = SvcState.running) :
    (OnStop a coop).adapter.state = SvcState.stopped ∧
    ((coop = true ∧
        (OnStop a coop).actions =
          [SvcAction.signalStop, SvcAction.joinWorker,
            SvcAction.destroyEngine] ∧
        (OnStop a coop).report = Report.stoppedOk) ∨
      (coop = false ∧
        (OnStop a coop).actions =
          [SvcAction.signalStop, SvcAction.forceTerminate,
            SvcAction.destroyEngine] ∧
        (OnStop a coop).report = Report.stopTimeout)) := by
  cases coop <;> simp [OnStop, teardown, h]

/-- Witness for C7 at a running adapter whose worker ignores the stop
signal beyond the grace period. -/
theorem onStop_bounded_termination_witness :
    (OnStop (Adapter.mk SvcState.running true 1) false).adapter.state =
      SvcState.stopped ∧
    ((false = true ∧
        (OnStop (Adapter.mk SvcState.running true 1) false).actions =
          [SvcAction.signalStop, SvcAction.joinWorker,
            SvcAction.destroyEngine] ∧
        (OnStop (Adapter.mk SvcState.running true 1) false).report =
          Report.stoppedOk) ∨
      (false = false ∧
        (OnStop (Adapter.mk SvcState.running true 1) false).actions =
          [SvcAction.signalStop, SvcAction.forceTerminate,
            SvcAction.destroyEngine] ∧
        (OnStop (Adapter.mk SvcState.running true 1) false).report =
          Report.stopTimeout)) :=
  onStop_bounded_termination (Adapter.mk SvcState.running true 1) false rfl

/-- C8: in every state where both are enabled (RUNNING), OnShutdown
produces exactly the same result as OnStop: after either call the engine
handle is released, the worker is gone, and the state is STOPPED. -/
theorem onShutdown_matches_onStop (a : Adapter) (coop : Bool)
    (h : a.state = SvcState.running) :
    OnShutdown a coop = OnStop a coop ∧
    (OnShutdown a coop).adapter.state = SvcState.stopped ∧
    (OnShutdown a coop).adapter.node = false ∧
    (OnShutdown a coop).adapter.workers = 0 ∧
    (OnStop a coop).adapter.state = SvcState.stopped ∧
    (OnStop a coop).adapter.node = false ∧
    (OnStop a coop).adapter.workers = 0 := by
  cases coop <;> simp [OnShutdown, OnStop, teardown, h]

/-- Witness for C8 at a running adapter with a cooperative worker. -/
theorem onShutdown_matches_onStop_witness :
    OnShutdown (Adapter.mk SvcState.running true 1) true =
      OnStop (Adapter.mk SvcState.running true 1) true ∧
    (OnShutdown (Adapter.mk SvcState.running true 1) true).adapter.state =
      SvcState.stopped ∧
    (OnShutdown (Adapter.mk SvcState.running true 1) true).adapter.node =
      false ∧
    (OnShutdown (Adapter.mk SvcState.running true 1) true).adapter.workers =
      0 ∧
    (OnStop (Adapter.mk SvcState.running true 1) true).adapter.state =
      SvcState.stopped ∧
    (OnStop (Adapter.mk SvcState.running true 1) true).adapter.node =
      false ∧
    (OnStop (Adapter.mk SvcState.running true 1) true).adapter.workers =
      0 :=
  onShutdown_matches_onStop (Adapter.mk SvcState.running true 1) true rfl

/-- C9 counterexample: the claim asserts that the worker entry point
`threadMain` is inaccessible outside the adapter, but the header declares
it in the `public:` section of the class, so it is accessible from any
call site outside the class. -/
theorem threadMain_public_counterexample :
    (memberAccess "threadMain").map accessibleOutside = some true ∧
    ¬ (memberAccess "threadMain").map accessibleOutside = some false := by
  refine ⟨rfl, ?_⟩
  intro hcontra
  rw [show (memberAccess "threadMain").map accessibleOutside = some true
    from rfl] at hcontra
  exact absurd hcontra (by decide)

/-- C9 (amended): `threadMain` is the designated worker entry point —
every reachable adapter state has at most one live worker context, and the
only operation that spawns a worker to execute it is OnStart from the
STOPPED state — but the entry point is declared `public`, so its
single-call-site discipline is enforced by the "do not call elsewhere"
convention, not structurally. -/
theorem threadMain_entry_point_amended (a : Adapter) (e : Event)
    (h : Reachable a) :
    (memberAccess "threadMain").map accessibleOutside = some true ∧
    a.workers ≤ 1 ∧
    (SvcAction.spawnWorker ∈ (applyEvent a e).actions →
      e.isStart = true ∧ a.state = SvcState.stopped) := by
  refine ⟨rfl, ?_, ?_⟩
  · rcases reachable_inv a h with ⟨_, _, hw⟩ | ⟨_, _, hw⟩ <;> omega
  · intro hmem
    rcases e with ⟨ok⟩ | ⟨c⟩ | ⟨c⟩
    · refine ⟨rfl, ?_⟩
      by_cases hs : a.state = SvcState.stopped
      · exact hs
      · simp [applyEvent, OnStart, hs] at hmem
    · by_cases hs : a.state = SvcState.running <;> cases c <;>
        simp [applyEvent, OnStop, teardown, hs] at hmem
    · by_cases hs : a.state = SvcState.running <;> cases c <;>
        simp [applyEvent, OnShutdown, hs] at hmem

/-- Witness for the amended C9 at the fresh adapter and a successful start
event. -/
theorem threadMain_entry_point_amended_witness :
    (memberAccess "threadMain").map accessibleOutside = some true ∧
    Adapter.init.workers ≤ 1 ∧
    (SvcAction.spawnWorker ∈
        (applyEvent Adapter.init (Event.start true)).actions →
      (Event.start true).isStart = true ∧
      Adapter.init.state = SvcState.stopped) :=
  threadMain_entry_point_amended Adapter.init (Event.start true) ⟨[], rfl⟩

/-- C10: the service registration parameters are fixed compile-time
constants: internal name "ZeroTierOneService", display name "ZeroTier
One", start type SERVICE_AUTO_START (automatic start at boot, not demand
start), no service dependencies, account "NT AUTHORITY\LocalService"
(with the backslash escaped in the source), and a null password. -/
theorem service_registration_constants :
    ZT_SERVICE_NAME = "ZeroTierOneService" ∧
    ZT_SERVICE_DISPLAY_NAME = "ZeroTier One" ∧
    ZT_SERVICE_START_TYPE = SERVICE_AUTO_START ∧
    ZT_SERVICE_START_TYPE ≠ SERVICE_DEMAND_START ∧
    ZT_SERVICE_DEPENDENCIES = "" ∧
    ZT_SERVICE_ACCOUNT = "NT AUTHORITY\\LocalService" ∧
    ZT_SERVICE_PASSWORD = none :=
  ⟨rfl, rfl, rfl, by decide, rfl, rfl, rfl⟩
